import Mathlib

/-!
Verification of the `generatePDF` repository: a generator that produces a
single-page PDF document whose serialized byte length equals a caller-chosen
target exactly.  The sizing core (`calculate_overhead` and its two halves) and
the document assembler (`generate_pdf_with_size`) are embedded from
`src/lib.rs`; the external encoder (the `lopdf` crate, out of scope for the
repository) is modelled from the specification where a claim needs it.
-/

namespace GenPDF

/-- Rust: `const MIN_SIZE_PDF: usize = 544;` -/
def MIN_SIZE_PDF : Nat := 544

/-- Rust: `const BASE_OVERHEAD: usize = 539;` -/
def BASE_OVERHEAD : Nat := 539

/-- Rust: `const CONTENT_OVERHEAD: usize = 31;` -/
def CONTENT_OVERHEAD : Nat := 31

/-- Rust: `const XREF_TABLE_BASE_OFFSET: usize = 162;` -/
def XREF_TABLE_BASE_OFFSET : Nat := 162

/-- Decimal digit width, `n.ilog10() as usize + 1` in the Rust source
(`strLen` in the source's doc comment).  `Nat.log 10` agrees with `ilog10`
on every positive argument. -/
def strLen (n : Nat) : Nat := Nat.log 10 n + 1

/-- Rust `calculate_overhead_from_start` (src/lib.rs:201-206): width of the
content-stream length field, after one corrective subtraction of the field's
own digit count. -/
def calculate_overhead_from_start (bytes : Nat) : Nat :=
  let content_bytes := bytes - BASE_OVERHEAD + CONTENT_OVERHEAD
  let content_bytes_digits := strLen content_bytes
  let content_bytes2 := content_bytes - content_bytes_digits
  strLen content_bytes2

/-- Rust `calculate_overhead_from_end` (src/lib.rs:208-213): width of the
cross-reference-table offset field. -/
def calculate_overhead_from_end (bytes : Nat) : Nat :=
  let offset := bytes - XREF_TABLE_BASE_OFFSET
  strLen offset

/-- Rust `calculate_overhead` (src/lib.rs:197-199). -/
def calculate_overhead (bytes : Nat) : Nat :=
  BASE_OVERHEAD + calculate_overhead_from_start bytes + calculate_overhead_from_end bytes

/-- Fill-buffer length implied by the overhead, `FillLength` in the spec:
`file_size_bytes - calculate_overhead(file_size_bytes)` (src/lib.rs:37). -/
def fill_length (bytes : Nat) : Nat := bytes - calculate_overhead bytes

/-! Kernel-evaluable digit width.  `Nat.log` is defined by well-founded
recursion and does not reduce inside `decide`, so concrete instances are
routed through this fuel-based clone, proved equal to `strLen`. -/

/-- Fuel-based digit counter; with fuel at least `n` it computes the decimal
digit width of `n`. -/
def strLenAux : Nat → Nat → Nat
  | 0, _ => 1
  | fuel + 1, n => if n < 10 then 1 else strLenAux fuel (n / 10) + 1

/-- Kernel-evaluable digit width. -/
def strLenC (n : Nat) : Nat := strLenAux n n

theorem strLenAux_eq (fuel : Nat) : ∀ n : Nat, n ≤ fuel → strLenAux fuel n = strLen n := by
  induction fuel with
  | zero =>
      intro n hn
      have : n = 0 := Nat.le_zero.mp hn
      subst this
      simp [strLenAux, strLen, Nat.log_zero_right]
  | succ fuel ih =>
      intro n hn
      by_cases h : n < 10
      · simp [strLenAux, h, strLen, Nat.log_of_lt h]
      · have h10 : 10 ≤ n := Nat.not_lt.mp h
        have hpos : 0 < n := Nat.lt_of_lt_of_le (by norm_num) h10
        have hdiv : n / 10 < n := Nat.div_lt_self hpos (by norm_num)
        have hle : n / 10 ≤ fuel := by omega
        have hrec := ih (n / 10) hle
        simp only [strLenAux, if_neg h, hrec, strLen]
        rw [Nat.log_of_one_lt_of_le (by norm_num) h10]

theorem strLen_eq_strLenC (n : Nat) : strLen n = strLenC n :=
  (strLenAux_eq n n (Nat.le_refl n)).symm

theorem calculate_overhead_from_start_eval (t : Nat) :
    calculate_overhead_from_start t =
      strLenC (t - BASE_OVERHEAD + CONTENT_OVERHEAD
        - strLenC (t - BASE_OVERHEAD + CONTENT_OVERHEAD)) := by
  simp [calculate_overhead_from_start, strLen_eq_strLenC]

theorem calculate_overhead_from_end_eval (t : Nat) :
    calculate_overhead_from_end t = strLenC (t - XREF_TABLE_BASE_OFFSET) := by
  simp [calculate_overhead_from_end, strLen_eq_strLenC]

theorem calculate_overhead_eval (t : Nat) :
    calculate_overhead t =
      BASE_OVERHEAD
        + strLenC (t - BASE_OVERHEAD + CONTENT_OVERHEAD
            - strLenC (t - BASE_OVERHEAD + CONTENT_OVERHEAD))
        + strLenC (t - XREF_TABLE_BASE_OFFSET) := by
  rw [calculate_overhead, calculate_overhead_from_start_eval, calculate_overhead_from_end_eval]

theorem fill_length_eval (t : Nat) :
    fill_length t =
      t - (BASE_OVERHEAD
        + strLenC (t - BASE_OVERHEAD + CONTENT_OVERHEAD
            - strLenC (t - BASE_OVERHEAD + CONTENT_OVERHEAD))
        + strLenC (t - XREF_TABLE_BASE_OFFSET)) := by
  rw [fill_length, calculate_overhead_eval]

/-! The document-object model.  The Rust code builds a `lopdf::Document`; the
constructors it uses (`with_version`, `new_object_id`, `add_object`, the
`dictionary!` macro, `Stream::new`, `trailer.set`) are embedded below with
`lopdf`'s behaviour: object ids are `(number, generation)` pairs handed out by
incrementing `max_id`, and the object table maps ids to objects.  The byte
encoder of `lopdf` stays external (spec §1, §4.2); a content stream therefore
carries its list of operations rather than their encoding. -/

/-- Rust `enum Error` (src/lib.rs:5-9). -/
inductive Error where
  | FileTooSmall (bytes : Nat)
  | LoPDFError
deriving DecidableEq

/-- Rust `impl Display for Error` (src/lib.rs:10-22); the `FileTooSmall`
message interpolates `MIN_SIZE_PDF` and the requested byte count (the
backslash line-continuation in the Rust string literal swallows the
intervening whitespace). -/
def error_message : Error → String
  | .FileTooSmall bytes =>
      "The requested PDF file may not be smaller than " ++ toString MIN_SIZE_PDF
        ++ " bytes due to overhead of the generation process.You requested "
        ++ toString bytes ++ " bytes."
  | .LoPDFError => "lopdf error"

/-- `lopdf` object ids: `(object number, generation)`. -/
abbrev ObjectId := Nat × Nat

/-- The subset of `lopdf::Object` exercised by the assembler.  A stream keeps
its operations (operator name with operand list) because encoding them to
bytes is the external encoder's job. -/
inductive Object where
  | integer (i : Int)
  | name (s : String)
  | string (bytes : List Nat)
  | reference (id : ObjectId)
  | array (elems : List Object)
  | dictionary (entries : List (String × Object))
  | stream (dict : List (String × Object)) (operations : List (String × List Object))

/-- The subset of `lopdf::Document` state the assembler touches. -/
structure Document where
  version : String
  max_id : Nat
  objects : List (ObjectId × Object)
  trailer : List (String × Object)

/-- `Document::with_version`: fresh document, no objects, empty trailer. -/
def Document.with_version (v : String) : Document := ⟨v, 0, [], []⟩

/-- `Document::new_object_id`: bump `max_id` and hand out `(max_id, 0)`. -/
def Document.new_object_id (d : Document) : Document × ObjectId :=
  (⟨d.version, d.max_id + 1, d.objects, d.trailer⟩, (d.max_id + 1, 0))

/-- `Document::add_object`: allocate a fresh id and bind it to the object. -/
def Document.add_object (d : Document) (o : Object) : Document × ObjectId :=
  (⟨d.version, d.max_id + 1, d.objects ++ [((d.max_id + 1, 0), o)], d.trailer⟩,
    (d.max_id + 1, 0))

/-- `doc.objects.insert(id, obj)` for an id not yet present. -/
def Document.insert_object (d : Document) (id : ObjectId) (o : Object) : Document :=
  ⟨d.version, d.max_id, d.objects ++ [(id, o)], d.trailer⟩

/-- `doc.trailer.set(key, value)` on the initially empty trailer. -/
def Document.trailer_set (d : Document) (k : String) (v : Object) : Document :=
  ⟨d.version, d.max_id, d.objects, d.trailer ++ [(k, v)]⟩

/-- Rust `fill` (src/lib.rs:166-168): overwrite every byte with
`"4".as_bytes()[0]`, the ASCII digit '4' (0x34 = 52). -/
def fill (bytes : List Nat) : List Nat := bytes.map (fun _ => 52)

/-- Rust `generate_pdf_with_size` (src/lib.rs:32-164): reject targets below
`MIN_SIZE_PDF`, size the fill buffer by `calculate_overhead`, and assemble the
fixed one-page document around it. -/
def generate_pdf_with_size (file_size_bytes : Nat) : Except Error Document :=
  if file_size_bytes < MIN_SIZE_PDF then
    Except.error (Error.FileTooSmall file_size_bytes)
  else
    let buffer : List Nat :=
      fill (List.replicate (file_size_bytes - calculate_overhead file_size_bytes) 0)
    let doc := Document.with_version "1.5"
    let step1 := doc.new_object_id
    let doc := step1.1
    let pages_id := step1.2
    let step2 := doc.add_object (Object.dictionary
      [("Type", Object.name "Font"),
       ("Subtype", Object.name "Type1"),
       ("BaseFont", Object.name "Courier")])
    let doc := step2.1
    let font_id := step2.2
    let step3 := doc.add_object (Object.dictionary
      [("Font", Object.dictionary [("F1", Object.reference font_id)])])
    let doc := step3.1
    let resources_id := step3.2
    let content : List (String × List Object) :=
      [("BT", []),
       ("Tf", [Object.name "F1", Object.integer 0]),
       ("Td", [Object.integer 100, Object.integer 600]),
       ("Tj", [Object.string buffer]),
       ("ET", [])]
    let step4 := doc.add_object (Object.stream [] content)
    let doc := step4.1
    let content_id := step4.2
    let step5 := doc.add_object (Object.dictionary
      [("Type", Object.name "Page"),
       ("Parent", Object.reference pages_id),
       ("Contents", Object.reference content_id)])
    let doc := step5.1
    let page_id := step5.2
    let pages := Object.dictionary
      [("Type", Object.name "Pages"),
       ("Kids", Object.array [Object.reference page_id]),
       ("Count", Object.integer 1),
       ("Resources", Object.reference resources_id),
       ("MediaBox", Object.array
         [Object.integer 0, Object.integer 0, Object.integer 595, Object.integer 842])]
    let doc := doc.insert_object pages_id pages
    let step6 := doc.add_object (Object.dictionary
      [("Type", Object.name "Catalog"),
       ("Pages", Object.reference pages_id)])
    let doc := step6.1
    let catalog_id := step6.2
    let doc := doc.trailer_set "Root" (Object.reference catalog_id)
    Except.ok doc

/-- Modelled from the spec: `digit_width(n) = floor(log10(n)) + 1` for
`n ≥ 1` (spec §4.1 step 2 and glossary). -/
def digit_width (n : Nat) : Nat := Nat.log 10 n + 1

/-- Modelled from the spec: the four-step overhead algorithm of §4.1, written
with the spec's names (`ContentBytes`, `Digits1`, `StartVariableOverhead`,
`Offset`, `EndVariableOverhead`), for comparison with the source's
`calculate_overhead`. -/
def spec_total_overhead (TargetSize : Nat) : Nat :=
  let ContentBytes := TargetSize - BASE_OVERHEAD + CONTENT_OVERHEAD
  let Digits1 := digit_width ContentBytes
  let ContentBytes2 := ContentBytes - Digits1
  let StartVariableOverhead := digit_width ContentBytes2
  let Offset := TargetSize - XREF_TABLE_BASE_OFFSET
  let EndVariableOverhead := digit_width Offset
  BASE_OVERHEAD + StartVariableOverhead + EndVariableOverhead

/-- Modelled from the spec: the serialized byte length produced by the
external encoder of §4.2/§6, which is not part of this repository.  Per the
spec, every byte other than the fill buffer and the two variable-width fields
is the constant skeleton (`BaseOverhead`, §4.2 guarantee); the content-stream
length field prints the actual stream length, namely the fill plus the fixed
per-stream encapsulation cost of 31 bytes (§4.1 step 1); the cross-reference
offset field prints `TargetSize - XrefBaseOffset` (§4.1 step 3). -/
def serialized_len (target_size : Nat) : Nat :=
  let fill_len := target_size - calculate_overhead target_size
  BASE_OVERHEAD + fill_len + digit_width (fill_len + CONTENT_OVERHEAD)
    + digit_width (target_size - XREF_TABLE_BASE_OFFSET)

/-- Modelled from the spec: a byte requires escaping in the target format's
literal-string encoding when it is a backslash, a parenthesis, or a control
byte (spec §3 FillBuffer, §8.6). -/
def needs_escape (b : Nat) : Bool :=
  b == 92 || b == 40 || b == 41 || decide (b < 32)

/-- Modelled from the spec: the document object graph §4.2 requires the
assembler to output — one Courier Type1 font, one resource dictionary naming
it `F1`, one content stream with the five fixed operations around the fill
buffer, one page, the page-tree root with its fixed media box, and a catalog
installed as the trailer root. -/
def spec_document (t : Nat) : Document :=
  ⟨"1.5", 6,
   [((2, 0), Object.dictionary
      [("Type", Object.name "Font"),
       ("Subtype", Object.name "Type1"),
       ("BaseFont", Object.name "Courier")]),
    ((3, 0), Object.dictionary
      [("Font", Object.dictionary [("F1", Object.reference (2, 0))])]),
    ((4, 0), Object.stream []
      [("BT", []),
       ("Tf", [Object.name "F1", Object.integer 0]),
       ("Td", [Object.integer 100, Object.integer 600]),
       ("Tj", [Object.string (List.replicate (fill_length t) 52)]),
       ("ET", [])]),
    ((5, 0), Object.dictionary
      [("Type", Object.name "Page"),
       ("Parent", Object.reference (1, 0)),
       ("Contents", Object.reference (4, 0))]),
    ((1, 0), Object.dictionary
      [("Type", Object.name "Pages"),
       ("Kids", Object.array [Object.reference (5, 0)]),
       ("Count", Object.integer 1),
       ("Resources", Object.reference (3, 0)),
       ("MediaBox", Object.array
         [Object.integer 0, Object.integer 0, Object.integer 595, Object.integer 842])]),
    ((6, 0), Object.dictionary
      [("Type", Object.name "Catalog"),
       ("Pages", Object.reference (1, 0))])],
   [("Root", Object.reference (6, 0))]⟩

theorem generate_eq_spec_document (t : Nat) (h : MIN_SIZE_PDF ≤ t) :
    generate_pdf_with_size t = Except.ok (spec_document t) := by
  rw [generate_pdf_with_size, if_neg (Nat.not_lt.mpr h)]
  simp [Document.with_version, Document.new_object_id, Document.add_object,
    Document.insert_object, Document.trailer_set, spec_document, fill,
    List.map_replicate, fill_length]

/-! Arithmetic facts about digit widths, shared by several claims. -/

theorem strLen_mono {m n : Nat} (h : m ≤ n) : strLen m ≤ strLen n :=
  Nat.add_le_add_right (Nat.log_mono_right h) 1

theorem succ_lt_ten_pow (k : Nat) (h : 1 ≤ k) : k + 1 < 10 ^ k := by
  induction k with
  | zero => omega
  | succ n ih =>
      by_cases hn : 1 ≤ n
      · have h1 := ih hn
        have h2 : 10 ^ (n + 1) = 10 * 10 ^ n := by ring
        omega
      · have : n = 0 := by omega
        subst this
        norm_num

theorem two_mul_add_le_ten_pow (k : Nat) (h : 3 ≤ k) : 2 * k + 541 ≤ 10 ^ k := by
  induction k with
  | zero => omega
  | succ n ih =>
      by_cases hn : 3 ≤ n
      · have h1 := ih hn
        have h2 : 10 ^ (n + 1) = 10 * 10 ^ n := by ring
        omega
      · have : n = 2 := by omega
        subst this
        norm_num

/-- For `n ≥ 10` the printed digit count is strictly below `n` itself. -/
theorem strLen_lt_self (n : Nat) (h : 10 ≤ n) : strLen n < n := by
  have hk : 0 < Nat.log 10 n := Nat.log_pos (by norm_num) h
  have h1 : Nat.log 10 n + 1 < 10 ^ Nat.log 10 n := succ_lt_ten_pow _ hk
  have h2 : 10 ^ Nat.log 10 n ≤ n := Nat.pow_log_le_self 10 (by omega)
  have : strLen n = Nat.log 10 n + 1 := rfl
  omega

theorem strLen_491 : strLen 491 = 3 := by
  have : Nat.log 10 491 = 2 :=
    Nat.log_eq_of_pow_le_of_lt_pow (by norm_num) (by norm_num)
  simp [strLen, this]

theorem strLen_837 : strLen 837 = 3 := by
  have : Nat.log 10 837 = 2 :=
    Nat.log_eq_of_pow_le_of_lt_pow (by norm_num) (by norm_num)
  simp [strLen, this]

/-- The total overhead never exceeds the target, for every target at or above
the 544-byte minimum. -/
theorem calculate_overhead_le (t : Nat) (h : MIN_SIZE_PDF ≤ t) :
    calculate_overhead t ≤ t := by
  have hmin : 544 ≤ t := h
  have hC : t - BASE_OVERHEAD + CONTENT_OVERHEAD = t - 508 := by
    simp only [BASE_OVERHEAD, CONTENT_OVERHEAD]; omega
  have ha : calculate_overhead_from_start t ≤ strLen (t - 508) := by
    rw [calculate_overhead_from_start, hC]
    exact strLen_mono (Nat.sub_le _ _)
  have hb : calculate_overhead_from_end t = strLen (t - 162) := rfl
  by_cases hbig : 1000 ≤ t
  · have hk : 3 ≤ Nat.log 10 t :=
      Nat.le_log_of_pow_le (by norm_num) (by norm_num; omega)
    have ha' : calculate_overhead_from_start t ≤ strLen t :=
      le_trans ha (strLen_mono (Nat.sub_le _ _))
    have hb' : calculate_overhead_from_end t ≤ strLen t := by
      rw [hb]; exact strLen_mono (Nat.sub_le _ _)
    have hs : strLen t = Nat.log 10 t + 1 := rfl
    have hpow : 2 * Nat.log 10 t + 541 ≤ 10 ^ Nat.log 10 t :=
      two_mul_add_le_ten_pow _ hk
    have hpl : 10 ^ Nat.log 10 t ≤ t := Nat.pow_log_le_self 10 (by omega)
    rw [calculate_overhead]
    simp only [BASE_OVERHEAD]
    omega
  · by_cases h544 : t = 544
    · subst h544
      rw [calculate_overhead_eval]; decide
    · have ht : 545 ≤ t ∧ t ≤ 999 := by omega
      have ha' : calculate_overhead_from_start t ≤ 3 := by
        refine le_trans ha ?_
        rw [← strLen_491]
        exact strLen_mono (by omega)
      have hb' : calculate_overhead_from_end t ≤ 3 := by
        rw [hb, ← strLen_837]
        exact strLen_mono (by omega)
      rw [calculate_overhead]
      simp only [BASE_OVERHEAD]
      omega

theorem digit_width_eq_strLen (n : Nat) : digit_width n = strLen n := rfl

theorem serialized_len_eval (t : Nat) :
    serialized_len t =
      BASE_OVERHEAD + (t - calculate_overhead t)
        + strLenC (t - calculate_overhead t + CONTENT_OVERHEAD)
        + strLenC (t - XREF_TABLE_BASE_OFFSET) := by
  simp [serialized_len, digit_width_eq_strLen, strLen_eq_strLenC]

/-! Claim theorems. -/

/-- C1: the spec claims that serializing the document returned by
`generate_pdf_with_size target_size` yields exactly `target_size` bytes for
every `target_size` in `[544, 2^28)`, and the repository's fuzz target
asserts the same equality.  Evaluating the spec-modelled encoder at the
in-range input 1513 refutes it: the estimator reserves 4 digits for the
content-stream length field, but the actual field value `966 + 31 = 997`
prints in 3, so the document serializes to 1512 bytes, one short. -/
theorem c1_exactness_fails_at_1513 :
    MIN_SIZE_PDF ≤ 1513 ∧ 1513 < 2 ^ 28
      ∧ serialized_len 1513 = 1512 ∧ serialized_len 1513 ≠ 1513 := by
  refine ⟨by decide, by decide, ?_, ?_⟩ <;>
    rw [serialized_len_eval, calculate_overhead_eval] <;> decide

/-- C2: for every `target_size ≥ 544` the computed total overhead equals
`539 + digit_width(C - digit_width(C)) + digit_width(target_size - 162)` with
`C = target_size - 539 + 31`, and coincides with the four-step algorithm of
spec §4.1 (`spec_total_overhead`). -/
theorem c2_overhead_formula (t : Nat) (h : MIN_SIZE_PDF ≤ t) :
    calculate_overhead t
        = BASE_OVERHEAD
          + digit_width (t - BASE_OVERHEAD + CONTENT_OVERHEAD
              - digit_width (t - BASE_OVERHEAD + CONTENT_OVERHEAD))
          + digit_width (t - XREF_TABLE_BASE_OFFSET)
      ∧ calculate_overhead t = spec_total_overhead t :=
  ⟨rfl, rfl⟩

theorem c2_overhead_formula_witness :
    MIN_SIZE_PDF ≤ 544
      ∧ (calculate_overhead 544
            = BASE_OVERHEAD
              + digit_width (544 - BASE_OVERHEAD + CONTENT_OVERHEAD
                  - digit_width (544 - BASE_OVERHEAD + CONTENT_OVERHEAD))
              + digit_width (544 - XREF_TABLE_BASE_OFFSET)
          ∧ calculate_overhead 544 = spec_total_overhead 544) :=
  ⟨by decide, c2_overhead_formula 544 (by decide)⟩

/-- C3: `generate_pdf_with_size` fails exactly on targets below the 544-byte
minimum, with the size-too-small error carrying the requested value, whose
rendered message reports both the minimum and the request; a too-small target
is never silently clamped to a success. -/
theorem c3_min_size_boundary (t : Nat) :
    ((generate_pdf_with_size t).isOk ↔ MIN_SIZE_PDF ≤ t)
      ∧ (t < MIN_SIZE_PDF →
          generate_pdf_with_size t = Except.error (Error.FileTooSmall t)
            ∧ error_message (Error.FileTooSmall t)
                = "The requested PDF file may not be smaller than 544 bytes "
                  ++ "due to overhead of the generation process.You requested "
                  ++ toString t ++ " bytes.") := by
  constructor
  · by_cases hlt : t < MIN_SIZE_PDF
    · rw [generate_pdf_with_size, if_pos hlt]
      simp [Except.isOk, Except.toBool, Nat.not_le.mpr hlt]
    · have h := Nat.not_lt.mp hlt
      rw [generate_eq_spec_document t h]
      simp [Except.isOk, Except.toBool, h]

  · intro hlt
    refine ⟨by rw [generate_pdf_with_size, if_pos hlt], ?_⟩
    have hpre :
        ("The requested PDF file may not be smaller than " ++ toString MIN_SIZE_PDF
            ++ " bytes due to overhead of the generation process.You requested ")
          = "The requested PDF file may not be smaller than 544 bytes "
              ++ "due to overhead of the generation process.You requested " := by
      decide
    calc error_message (Error.FileTooSmall t)
        = ("The requested PDF file may not be smaller than " ++ toString MIN_SIZE_PDF
            ++ " bytes due to overhead of the generation process.You requested ")
          ++ toString t ++ " bytes." := by
          simp [error_message, String.append_assoc]
      _ = _ := by rw [hpre]

theorem c3_min_size_boundary_witness :
    generate_pdf_with_size 543 = Except.error (Error.FileTooSmall 543)
      ∧ (generate_pdf_with_size 544).isOk = true := by
  refine ⟨((c3_min_size_boundary 543).2 (by decide)).1, ?_⟩
  exact (c3_min_size_boundary 544).1.mpr (by decide)

/-- C4 counterexample: at the in-range target 1508 the corrective subtraction
crosses a power-of-ten boundary: `C = 1508 - 539 + 31 = 1000` has digit width
4, but `digit_width(C - 4) = digit_width(996) = 3`, so the one-step
correction is not at the fixed point there. -/
theorem c4_fixed_point_counterexample :
    MIN_SIZE_PDF ≤ 1508 ∧ 1508 < 2 ^ 28
      ∧ calculate_overhead_from_start 1508 = 3
      ∧ strLen (1508 - BASE_OVERHEAD + CONTENT_OVERHEAD) = 4
      ∧ calculate_overhead_from_start 1508
          ≠ strLen (1508 - BASE_OVERHEAD + CONTENT_OVERHEAD) := by
  refine ⟨by decide, by decide, ?_, ?_, ?_⟩
  · rw [calculate_overhead_from_start_eval]; decide
  · rw [strLen_eq_strLenC]; decide
  · rw [calculate_overhead_from_start_eval, strLen_eq_strLenC]; decide

/-- C4 amended: for every `target_size ≥ 544` such that
`C = target_size - 539 + 31` satisfies
`10^(digit_width(C) - 1) + digit_width(C) ≤ C` — that is, subtracting the
digit count cannot cross the power-of-ten boundary below `C` — the one-step
correction is at the fixed point: `digit_width(C - digit_width(C)) =
digit_width(C)`. -/
theorem c4_fixed_point_amended (t : Nat) (h : MIN_SIZE_PDF ≤ t)
    (hb : 10 ^ (strLen (t - BASE_OVERHEAD + CONTENT_OVERHEAD) - 1)
            + strLen (t - BASE_OVERHEAD + CONTENT_OVERHEAD)
          ≤ t - BASE_OVERHEAD + CONTENT_OVERHEAD) :
    calculate_overhead_from_start t = strLen (t - BASE_OVERHEAD + CONTENT_OVERHEAD) := by
  have hunfold : calculate_overhead_from_start t
      = strLen (t - BASE_OVERHEAD + CONTENT_OVERHEAD
          - strLen (t - BASE_OVERHEAD + CONTENT_OVERHEAD)) := rfl
  rw [hunfold]
  have hd : strLen (t - BASE_OVERHEAD + CONTENT_OVERHEAD)
      = Nat.log 10 (t - BASE_OVERHEAD + CONTENT_OVERHEAD) + 1 := rfl
  have hkey : Nat.log 10 (t - BASE_OVERHEAD + CONTENT_OVERHEAD
        - strLen (t - BASE_OVERHEAD + CONTENT_OVERHEAD))
      = Nat.log 10 (t - BASE_OVERHEAD + CONTENT_OVERHEAD) := by
    apply Nat.log_eq_of_pow_le_of_lt_pow
    · have hb' : 10 ^ Nat.log 10 (t - BASE_OVERHEAD + CONTENT_OVERHEAD)
            + strLen (t - BASE_OVERHEAD + CONTENT_OVERHEAD)
          ≤ t - BASE_OVERHEAD + CONTENT_OVERHEAD := by
        rw [hd] at hb ⊢
        simpa using hb
      omega
    · have h2 := Nat.lt_pow_succ_log_self (b := 10) (by norm_num)
        (t - BASE_OVERHEAD + CONTENT_OVERHEAD)
      have h3 : t - BASE_OVERHEAD + CONTENT_OVERHEAD
            - strLen (t - BASE_OVERHEAD + CONTENT_OVERHEAD)
          ≤ t - BASE_OVERHEAD + CONTENT_OVERHEAD := Nat.sub_le _ _
      omega
  exact congrArg (fun m => m + 1) hkey

theorem c4_fixed_point_amended_witness :
    (MIN_SIZE_PDF ≤ 1000
        ∧ 10 ^ (strLen (1000 - BASE_OVERHEAD + CONTENT_OVERHEAD) - 1)
            + strLen (1000 - BASE_OVERHEAD + CONTENT_OVERHEAD)
          ≤ 1000 - BASE_OVERHEAD + CONTENT_OVERHEAD)
      ∧ calculate_overhead_from_start 1000
          = strLen (1000 - BASE_OVERHEAD + CONTENT_OVERHEAD) := by
  refine ⟨⟨by decide, by rw [strLen_eq_strLenC]; decide⟩, ?_⟩
  exact c4_fixed_point_amended 1000 (by decide) (by rw [strLen_eq_strLenC]; decide)

/-- C5: incrementing a target above the minimum by one byte grows the fill
length by exactly one whenever neither variable-width field changes digit
width at the step. -/
theorem c5_monotonic_fill (t : Nat) (h : MIN_SIZE_PDF ≤ t)
    (h1 : calculate_overhead_from_start (t + 1) = calculate_overhead_from_start t)
    (h2 : calculate_overhead_from_end (t + 1) = calculate_overhead_from_end t) :
    fill_length (t + 1) = fill_length t + 1 := by
  have hov : calculate_overhead (t + 1) = calculate_overhead t := by
    rw [calculate_overhead, calculate_overhead, h1, h2]
  have hle := calculate_overhead_le t h
  rw [fill_length, fill_length, hov]
  omega

theorem c5_monotonic_fill_witness :
    (MIN_SIZE_PDF ≤ 1000
        ∧ calculate_overhead_from_start 1001 = calculate_overhead_from_start 1000
        ∧ calculate_overhead_from_end 1001 = calculate_overhead_from_end 1000)
      ∧ fill_length 1001 = fill_length 1000 + 1 := by
  refine ⟨⟨by decide, ?_, ?_⟩, ?_⟩
  · rw [calculate_overhead_from_start_eval, calculate_overhead_from_start_eval]; decide
  · rw [calculate_overhead_from_end_eval, calculate_overhead_from_end_eval]; decide
  · exact c5_monotonic_fill 1000 (by decide)
      (by rw [calculate_overhead_from_start_eval, calculate_overhead_from_start_eval]; decide)
      (by rw [calculate_overhead_from_end_eval, calculate_overhead_from_end_eval]; decide)

/-- C6: for every target at or above the minimum, the fill buffer placed as
the `Tj` operand has length `target_size - calculate_overhead target_size`,
every one of its bytes is the ASCII digit '4' (0x34 = 52), and that byte
needs no escaping in a literal string (it is no backslash, parenthesis, or
control byte). -/
theorem c6_fill_buffer (t : Nat) (h : MIN_SIZE_PDF ≤ t) :
    ∃ d, generate_pdf_with_size t = Except.ok d
      ∧ ((4, 0), Object.stream []
          [("BT", []),
           ("Tf", [Object.name "F1", Object.integer 0]),
           ("Td", [Object.integer 100, Object.integer 600]),
           ("Tj", [Object.string (List.replicate (fill_length t) 52)]),
           ("ET", [])]) ∈ d.objects
      ∧ (List.replicate (fill_length t) 52).length = t - calculate_overhead t
      ∧ (∀ b ∈ List.replicate (fill_length t) 52, b = 52)
      ∧ needs_escape 52 = false := by
  refine ⟨spec_document t, generate_eq_spec_document t h, ?_, ?_, ?_, by decide⟩
  · simp [spec_document]
  · simp [fill_length]
  · intro b hb
    exact List.eq_of_mem_replicate hb

theorem c6_fill_buffer_witness :
    MIN_SIZE_PDF ≤ 1000
      ∧ (∃ d, generate_pdf_with_size 1000 = Except.ok d
          ∧ ((4, 0), Object.stream []
              [("BT", []),
               ("Tf", [Object.name "F1", Object.integer 0]),
               ("Td", [Object.integer 100, Object.integer 600]),
               ("Tj", [Object.string (List.replicate (fill_length 1000) 52)]),
               ("ET", [])]) ∈ d.objects
          ∧ (List.replicate (fill_length 1000) 52).length
              = 1000 - calculate_overhead 1000
          ∧ (∀ b ∈ List.replicate (fill_length 1000) 52, b = 52)
          ∧ needs_escape 52 = false) :=
  ⟨by decide, c6_fill_buffer 1000 (by decide)⟩

/-- C7: for every target at or above the minimum, every subtraction inside
the overhead computation stays above zero — the corrected content byte count
is at least 36, subtracting its own digit width keeps it strictly positive,
and the cross-reference offset is at least 382 — so no `ilog10` argument is
zero and no unsigned subtraction underflows; a target below the minimum is
rejected with the size error before these computations run (shown at 543). -/
theorem c7_no_underflow (t : Nat) (h : MIN_SIZE_PDF ≤ t) :
    BASE_OVERHEAD ≤ t
      ∧ XREF_TABLE_BASE_OFFSET ≤ t
      ∧ 36 ≤ t - BASE_OVERHEAD + CONTENT_OVERHEAD
      ∧ strLen (t - BASE_OVERHEAD + CONTENT_OVERHEAD)
          < t - BASE_OVERHEAD + CONTENT_OVERHEAD
      ∧ 0 < t - BASE_OVERHEAD + CONTENT_OVERHEAD
            - strLen (t - BASE_OVERHEAD + CONTENT_OVERHEAD)
      ∧ 382 ≤ t - XREF_TABLE_BASE_OFFSET
      ∧ generate_pdf_with_size 543 = Except.error (Error.FileTooSmall 543) := by
  have h544 : 544 ≤ t := h
  have hBO : BASE_OVERHEAD = 539 := rfl
  have hCO : CONTENT_OVERHEAD = 31 := rfl
  have hXR : XREF_TABLE_BASE_OFFSET = 162 := rfl
  have hC : 36 ≤ t - BASE_OVERHEAD + CONTENT_OVERHEAD := by omega
  have hlt : strLen (t - BASE_OVERHEAD + CONTENT_OVERHEAD)
      < t - BASE_OVERHEAD + CONTENT_OVERHEAD :=
    strLen_lt_self _ (by omega)
  refine ⟨by omega, by omega, hC, hlt, by omega, by omega, ?_⟩
  rw [generate_pdf_with_size, if_pos (by decide)]

theorem c7_no_underflow_witness :
    MIN_SIZE_PDF ≤ 544
      ∧ (BASE_OVERHEAD ≤ 544
          ∧ XREF_TABLE_BASE_OFFSET ≤ 544
          ∧ 36 ≤ 544 - BASE_OVERHEAD + CONTENT_OVERHEAD
          ∧ strLen (544 - BASE_OVERHEAD + CONTENT_OVERHEAD)
              < 544 - BASE_OVERHEAD + CONTENT_OVERHEAD
          ∧ 0 < 544 - BASE_OVERHEAD + CONTENT_OVERHEAD
                - strLen (544 - BASE_OVERHEAD + CONTENT_OVERHEAD)
          ∧ 382 ≤ 544 - XREF_TABLE_BASE_OFFSET
          ∧ generate_pdf_with_size 543 = Except.error (Error.FileTooSmall 543)) :=
  ⟨by decide, c7_no_underflow 544 (by decide)⟩

/-- C8: for every target at or above the minimum, the assembler returns
exactly the document graph of spec §4.2 — one Courier Type1 font, one
resource dictionary naming it `F1`, one content stream whose five operations
are `BT`, `Tf (F1, 0)`, `Td (100, 600)`, `Tj` with the fill buffer as a
literal string, and `ET`, one page referencing the content stream and the
page-tree root, the page-tree root with `Kids = [page]`, `Count = 1` and
`MediaBox [0, 0, 595, 842]`, and a catalog referencing the page-tree root,
installed as the trailer's `Root`. -/
theorem c8_document_graph (t : Nat) (h : MIN_SIZE_PDF ≤ t) :
    generate_pdf_with_size t = Except.ok (spec_document t) :=
  generate_eq_spec_document t h

theorem c8_document_graph_witness :
    MIN_SIZE_PDF ≤ 544
      ∧ generate_pdf_with_size 544 = Except.ok (spec_document 544) :=
  ⟨by decide, c8_document_graph 544 (by decide)⟩

/-- C9: generation is deterministic and free of shared state in the
embedding — equal targets yield identical documents and identical serialized
lengths under the spec-modelled encoder. -/
theorem c9_deterministic (t1 t2 : Nat) (h : t1 = t2) :
    generate_pdf_with_size t1 = generate_pdf_with_size t2
      ∧ serialized_len t1 = serialized_len t2 := by
  subst h
  exact ⟨rfl, rfl⟩

theorem c9_deterministic_witness :
    (700 : Nat) = 700
      ∧ generate_pdf_with_size 700 = generate_pdf_with_size 700
      ∧ serialized_len 700 = serialized_len 700 :=
  ⟨rfl, c9_deterministic 700 700 rfl⟩

/-- C10: for every target at or above the minimum the overhead never exceeds
the target, so the fill-buffer length `target_size - calculate_overhead
target_size` never underflows; at the minimum 544 the overhead consumes the
whole target and the fill buffer is empty. -/
theorem c10_overhead_within_target (t : Nat) (h : MIN_SIZE_PDF ≤ t) :
    calculate_overhead t ≤ t
      ∧ (t = MIN_SIZE_PDF →
          calculate_overhead t = MIN_SIZE_PDF ∧ fill_length t = 0) := by
  refine ⟨calculate_overhead_le t h, ?_⟩
  intro ht
  subst ht
  constructor
  · rw [calculate_overhead_eval]; decide
  · rw [fill_length_eval]; decide

theorem c10_overhead_within_target_witness :
    MIN_SIZE_PDF ≤ 544
      ∧ calculate_overhead 544 ≤ 544
      ∧ (544 = MIN_SIZE_PDF →
          calculate_overhead 544 = MIN_SIZE_PDF ∧ fill_length 544 = 0) :=
  ⟨by decide, (c10_overhead_within_target 544 (by decide)).1,
    (c10_overhead_within_target 544 (by decide)).2⟩

/-- At the minimum size the overhead consumes the whole document. -/
theorem calculate_overhead_at_min : calculate_overhead 544 = 544 := by
  rw [calculate_overhead_eval]; decide

/-- At the target 10000 of spec §8.7 the spec-modelled encoder does hit the
target exactly, so the boundary failure of C1 is not systematic. -/
theorem serialized_len_at_10000 : serialized_len 10000 = 10000 := by
  rw [serialized_len_eval, calculate_overhead_eval]; decide

end GenPDF
